import Mathlib

/-!
Verification of the Kryptos wallet risk-intelligence engine.

This file is a shallow embedding, in Lean 4, of the parts of the engine
that the specification talks about: the hybrid scorer (backend/ml/scorer.py),
the MEV detector (backend/ml/mev_detector.py), the temporal detector
(backend/ml/temporal_anomaly.py), the sanctions engine
(backend/ml/sanctions.py with backend/ml/known_labels.py), the community
report aggregation (backend/ml/community_reports.py), the fetcher cache
(backend/ml/fetcher.py) and the orchestrator (backend/main.py).

Conventions of the embedding:
* Python floats on the code paths treated here carry exact decimal or
  integer data, so they are modelled by rational numbers.
* Python int() truncation of a non-negative quantity is Int.floor.
* Addresses and block identifiers are strings; Python str.lower is mapped
  to character-wise Char.toLower (the addresses involved are ASCII).
* Transactions are the Etherscan JSON dictionaries the code actually
  consumes; each dictionary key read by the code becomes a field, with the
  default value the code supplies in tx.get(key, default).
-/

namespace Kryptos

/-- Python str.lower on ASCII strings, as used for address normalisation. -/
def pyLower (s : String) : String := String.mk (s.data.map Char.toLower)

/-- An Etherscan transaction record, with exactly the fields the analysed
code reads and the defaults it supplies on missing keys.  The wei value is
an integer; gas price is in wei. -/
structure Tx where
  hash : String := ""
  blockNumber : String := ""
  transactionIndex : Nat := 0
  timeStamp : Nat := 0
  fro : String := ""
  toAddr : String := ""
  value : Int := 0
  gasPrice : Option Nat := none
  gasUsed : Nat := 0
  inputData : String := "0x"
  isError : String := "0"
  deriving Repr, DecidableEq

/-- The 33-entry feature vector of backend/ml/features.py (FEATURE_COLUMNS
order).  All entries are finite numbers, modelled as rationals. -/
structure FeatureVector where
  tx_count : ℚ := 0
  sent_count : ℚ := 0
  recv_count : ℚ := 0
  total_sent_eth : ℚ := 0
  total_recv_eth : ℚ := 0
  net_flow_eth : ℚ := 0
  flow_ratio : ℚ := 0
  mean_value : ℚ := 0
  median_value : ℚ := 0
  std_value : ℚ := 0
  max_value : ℚ := 0
  min_value : ℚ := 0
  mean_sent : ℚ := 0
  mean_recv : ℚ := 0
  unique_counterparties : ℚ := 0
  unique_targets : ℚ := 0
  unique_sources : ℚ := 0
  repeated_targets : ℚ := 0
  self_transfers : ℚ := 0
  active_days : ℚ := 0
  lifespan_days : ℚ := 0
  mean_time_between_tx : ℚ := 0
  std_time_between_tx : ℚ := 0
  min_time_between_tx : ℚ := 0
  burst_ratio : ℚ := 0
  mean_gas_price : ℚ := 0
  std_gas_price : ℚ := 0
  mean_gas_used : ℚ := 0
  contract_call_ratio : ℚ := 0
  failed_tx_ratio : ℚ := 0
  round_value_ratio : ℚ := 0
  tx_per_day : ℚ := 0
  value_per_counterparty : ℚ := 0

/-! ## Heuristic rule bank (scorer.py, WalletScorer._compute_heuristic_boost)

The function accumulates score += contribution for eight rules in source
order and returns min(score, 100).  computeHeuristicBoost is the direct
sequential translation; the individual rule contributions are also named
separately so the additive structure can be stated. -/

/-- Rule 1: high round-value ratio (potential laundering). -/
def ruleRoundValue (f : FeatureVector) : ℚ :=
  if f.round_value_ratio > 0.6 then 20 else if f.round_value_ratio > 0.3 then 10 else 0

/-- Rule 2: burst transactions (automated behaviour). -/
def ruleBurst (f : FeatureVector) : ℚ :=
  if f.burst_ratio > 0.5 then 25 else if f.burst_ratio > 0.2 then 10 else 0

/-- Rule 3: self-transfers (common in mixers). -/
def ruleSelfTransfers (f : FeatureVector) : ℚ :=
  if f.self_transfers > 3 then 15 else if f.self_transfers > 0 then 5 else 0

/-- Rule 4: very high send/recv ratio (draining pattern). -/
def ruleFlowRatio (f : FeatureVector) : ℚ :=
  if f.flow_ratio > 5 then 20 else if f.flow_ratio > 2 then 10 else 0

/-- Rule 5: high failed-transaction ratio. -/
def ruleFailedTx (f : FeatureVector) : ℚ :=
  if f.failed_tx_ratio > 0.3 then 15 else 0

/-- Rule 6: few counterparties but many transactions (cycling). -/
def ruleCycling (f : FeatureVector) : ℚ :=
  if f.tx_count > 20 ∧ f.unique_counterparties < 5 then 15 else 0

/-- Rule 7: short lifespan with high volume (hit-and-run). -/
def ruleShortLifespan (f : FeatureVector) : ℚ :=
  if f.lifespan_days < 7 ∧ f.tx_count > 30 then 20 else 0

/-- Rule 8: new wallet moving large values. -/
def ruleNewWallet (f : FeatureVector) : ℚ :=
  if f.lifespan_days < 3 ∧ f.max_value > 10 then 15 else 0

/-- scorer.py lines 121-165: sequential accumulation over the eight rules,
then capped at 100. -/
def computeHeuristicBoost (f : FeatureVector) : ℚ :=
  let score : ℚ := 0
  let score := score + (if f.round_value_ratio > 0.6 then 20
    else if f.round_value_ratio > 0.3 then 10 else 0)
  let score := score + (if f.burst_ratio > 0.5 then 25
    else if f.burst_ratio > 0.2 then 10 else 0)
  let score := score + (if f.self_transfers > 3 then 15
    else if f.self_transfers > 0 then 5 else 0)
  let score := score + (if f.flow_ratio > 5 then 20
    else if f.flow_ratio > 2 then 10 else 0)
  let score := score + (if f.failed_tx_ratio > 0.3 then 15 else 0)
  let score := score + (if f.tx_count > 20 ∧ f.unique_counterparties < 5 then 15 else 0)
  let score := score + (if f.lifespan_days < 7 ∧ f.tx_count > 30 then 20 else 0)
  let score := score + (if f.lifespan_days < 3 ∧ f.max_value > 10 then 15 else 0)
  min score 100

/-! ## Score combination and labelling (scorer.py, score_wallet lines 86-95) -/

/-- Lines 87-95 of scorer.py: the final risk score is
int(np.clip(ml_score * 0.7 + heuristic_boost * 0.3, 0, 100)) and the label
is chosen by the subsequent if-chain.  np.clip(x, 0, 100) is
min (max x 0) 100, and Python int() on the (non-negative) clipped value is
the floor. -/
def scoreWallet (mlScore heuristicBoost : ℚ) : ℤ × String :=
  let finalScore : ℤ := ⌊min (max (mlScore * 0.7 + heuristicBoost * 0.3) 0) 100⌋
  let label : String :=
    if finalScore ≥ 75 then "High Risk"
    else if finalScore ≥ 40 then "Medium Risk"
    else "Low Risk"
  (finalScore, label)

/-- scorer.py lines 73-81: min-max normalisation of the isolation-model raw
scores.  The target row is the first row of the scored matrix, so its raw
score heads the list.  When the raw scores have no spread, the range is
substituted by 1.0.  The result is clipped to the 0-100 band. -/
def mlScoreOfRaw (targetRaw : ℚ) (rest : List ℚ) : ℚ :=
  let scores := targetRaw :: rest
  let scoreMin := scores.foldl min targetRaw
  let scoreMax := scores.foldl max targetRaw
  let scoreRange := if scoreMax ≠ scoreMin then scoreMax - scoreMin else 1
  let ml := (1 - (targetRaw - scoreMin) / scoreRange) * 100
  min (max ml 0) 100


/-! ## Known address labels (backend/ml/known_labels.py) -/

/-- The KNOWN_ADDRESSES table in source order: address, label, category.
The key 0x1231deb6f5749ef6ce6943a275a1d3e7486f4eae appears twice in the
Python dict literal (dex section, then bridge section); Python dict
construction keeps the value of the last occurrence, which dictLookup
below reproduces. -/
def KNOWN_ADDRESSES : List (String × String × String) := [
  ("0x28c6c06298d514db089934071355e5743bf21d60", "Binance 14", "exchange"),
  ("0x21a31ee1afc51d94c2efccaa2092ad1028285549", "Binance 15", "exchange"),
  ("0xdfd5293d8e347dfe59e90efd55b2956a1343963d", "Binance 16", "exchange"),
  ("0x56eddb7aa87536c09ccc2793473599fd21a8b17f", "Binance 17", "exchange"),
  ("0x9696f59e4d72e237be84ffd425dcad154bf96976", "Binance 18", "exchange"),
  ("0xbe0eb53f46cd790cd13851d5eff43d12404d33e8", "Binance 7", "exchange"),
  ("0xf977814e90da44bfa03b6295a0616a897441acec", "Binance 8", "exchange"),
  ("0x3f5ce5fbfe3e9af3971dd833d26ba9b5c936f0be", "Binance 1", "exchange"),
  ("0xd551234ae421e3bcba99a0da6d736074f22192ff", "Binance 2", "exchange"),
  ("0x564286362092d8e7936f0549571a803b203aaced", "Binance 3", "exchange"),
  ("0x0681d8db095565fe8a346fa0277bffde9c0edbbf", "Binance 4", "exchange"),
  ("0xfe9e8709d3215310075d67e3ed32a380ccf451c8", "Binance 5", "exchange"),
  ("0x4e9ce36e442e55ecd9025b9a6e0d88485d628a67", "Binance 6", "exchange"),
  ("0x47ac0fb4f2d84898e4d9e7b4dab3c24507a6d503", "Binance: Binance-Peg Tokens", "exchange"),
  ("0xeb2629a2734e272bcc07bda959863f316f4bd4cf", "Coinbase 6", "exchange"),
  ("0xa9d1e08c7793af67e9d92fe308d5697fb81d3e43", "Coinbase 10", "exchange"),
  ("0x503828976d22510aad0201ac7ec88293211d23da", "Coinbase 1", "exchange"),
  ("0xddfabcdc4d8ffc6d5beaf154f18b778f892a0740", "Coinbase 3", "exchange"),
  ("0x3cd751e6b0078be393132286c442345e5dc49699", "Coinbase 4", "exchange"),
  ("0x71660c4005ba85c37ccec55d0c4493e66fe775d3", "Coinbase 5", "exchange"),
  ("0xb5d85cbf7cb3ee0d56b3bb207d5fc4b82f43f511", "Coinbase 7", "exchange"),
  ("0xd688aea8f7d450909ade10c47faa95707b0682d9", "Coinbase 2", "exchange"),
  ("0x2910543af39aba0cd09dbb2d50200b3e800a63d2", "Kraken 13", "exchange"),
  ("0xae2d4617c862309a3d75a0ffb358c7a5009c673f", "Kraken 10", "exchange"),
  ("0x267be1c1d684f78cb4f6a176c4911b741e4ffdc0", "Kraken 4", "exchange"),
  ("0xfa52274dd61e1643d2205169732f29114bc240b3", "Kraken 7", "exchange"),
  ("0x53d284357ec70ce289d6d64134dfac8e511c8a3d", "Kraken 4", "exchange"),
  ("0x2b5634c42055806a59e9107ed44d43c426e58258", "KuCoin 1", "exchange"),
  ("0x689c56aef474df92d44a1b70850f808488f9769c", "KuCoin 2", "exchange"),
  ("0xa7efae728d2936e78bda97dc267687568dd593f3", "OKX 3", "exchange"),
  ("0x6cc5f688a315f3dc28a7781717a9a798a59fda7b", "OKX 4", "exchange"),
  ("0x236f9f97e0e62388479bf9e5ba4889e46b0273c3", "OKX 2", "exchange"),
  ("0x75e89d5979e4f6fba9f97c104c2f0afb3f1dcb88", "MEXC", "exchange"),
  ("0x0d0707963952f2fba59dd06f2b425ace40b492fe", "Gate.io 1", "exchange"),
  ("0x7793cd85c11a924478d358d49b7f846492535b80", "Gate.io 2", "exchange"),
  ("0x1151314c646ce4e0efd76d1af4760ae66a9fe30f", "Bitfinex 1", "exchange"),
  ("0x876eabf441b2ee5b5b0554fd502a8e0600950cfa", "Bitfinex 4", "exchange"),
  ("0xab7c74abc0c4d48d1bdad5dcb26153fc8780f83e", "Bitfinex MultiSig 1", "exchange"),
  ("0xc098b2a3aa256d2140208c3de6543aaef5cd3a94", "FTX Exchange", "exchange"),
  ("0x2faf487a4414fe77e2327f0bf4ae2a264a776ad2", "FTX 1", "exchange"),
  ("0xdc76cd25977e0a5ae17155770273ad58648900d3", "Bybit", "exchange"),
  ("0xf89d7b9c864f589bbf53a82105107622b35eaa40", "Bybit 2", "exchange"),
  ("0x1ab4973a48dc892cd9971ece8e01dcc7688f8f23", "Gemini 4", "exchange"),
  ("0x07ee55aa48bb72dcc6e9d78256648910de513eca", "Gemini 7", "exchange"),
  ("0x7a250d5630b4cf539739df2c5dacb4c659f2488d", "Uniswap V2 Router", "dex"),
  ("0xe592427a0aece92de3edee1f18e0157c05861564", "Uniswap V3 Router", "dex"),
  ("0x68b3465833fb72a70ecdf485e0e4c7bd8665fc45", "Uniswap V3 Router 2", "dex"),
  ("0x3fc91a3afd70395cd496c647d5a6cc9d4b2b7fad", "Uniswap Universal Router", "dex"),
  ("0xd9e1ce17f2641f24ae83637ab66a2cca9c378b9f", "SushiSwap Router", "dex"),
  ("0x1111111254eeb25477b68fb85ed929f73a960582", "1inch v5 Router", "dex"),
  ("0x11111112542d85b3ef69ae05771c2dccff4faa26", "1inch v3 Router", "dex"),
  ("0x1231deb6f5749ef6ce6943a275a1d3e7486f4eae", "LI.FI Diamond", "dex"),
  ("0xdef1c0ded9bec7f1a1670819833240f027b25eff", "0x Exchange Proxy", "dex"),
  ("0x881d40237659c251811cec9c364ef91dc08d300c", "MetaMask Swap Router", "dex"),
  ("0x3328f7f4a1d1c57c35df56bbf0c9dcafca309c49", "Banana Gun Router", "dex"),
  ("0x80a64c6d7f12c47b7c66c5b4e20e72bc0011e653", "Maestro Router", "dex"),
  ("0x3154cf16ccdb4c6d922629664174b904d80f2c35", "Base Bridge", "bridge"),
  ("0x49048044d57e1c92a77f79988d21fa8faf74e97e", "Base Portal", "bridge"),
  ("0x3ee18b2214aff97000d974cf647e7c347e8fa585", "Wormhole: Portal", "bridge"),
  ("0x99c9fc46f92e8a1c0dec1b1747d010903e884be1", "Optimism Gateway", "bridge"),
  ("0x4dbd4fc535ac27206064b68ffcf827b0a60bab3f", "Arbitrum Delayed Inbox", "bridge"),
  ("0x8315177ab297ba92a06054ce80a67ed4dbd7ed3a", "Arbitrum Bridge", "bridge"),
  ("0x2796317b0ff8538f253012862c06787adfb8ceb6", "Synapse Bridge", "bridge"),
  ("0xa0c68c638235ee32657e8f720a23cec1bfc77c77", "Polygon Bridge", "bridge"),
  ("0x40ec5b33f54e0e8a33a975908c5ba1c14e5bbbdf", "Polygon: ERC20 Bridge", "bridge"),
  ("0xe4ef137290faec60a1058e29709fc09ac3b6f2af", "Wormhole: Token Bridge", "bridge"),
  ("0xd19d4b5d358258f05d7b411e21a1460d11b0876f", "Hop Protocol", "bridge"),
  ("0x1231deb6f5749ef6ce6943a275a1d3e7486f4eae", "LI.FI Diamond", "bridge"),
  ("0x7d2768de32b0b80b7a3454c06bdac94a69ddc7a9", "Aave V2 Lending Pool", "defi"),
  ("0x87870bca3f3fd6335c3f4ce8392d69350b4fa4e2", "Aave V3 Pool", "defi"),
  ("0xc3d688b66703497daa19211eedff47f25384cdc3", "Compound V3 cUSDCv3", "defi"),
  ("0xa17581a9e3356d9a858b789d68b4d866e593ae94", "Compound V3 cWETHv3", "defi"),
  ("0xbebc44782c7db0a1a60cb6fe97d0b483032ff1c7", "Curve: 3pool", "defi"),
  ("0xdc24316b9ae028f1497c275eb9192a3ea0f67022", "Lido: stETH Curve Pool", "defi"),
  ("0xae7ab96520de3a18e5e111b5eaab095312d7fe84", "Lido: stETH", "defi"),
  ("0xba12222222228d8ba445958a75a0704d566bf2c8", "Balancer: Vault", "defi"),
  ("0x83f20f44975d03b1b09e64809b757c47f942beea", "Spark: sDAI", "defi"),
  ("0xc36442b4a4522e871399cd717abdd847ab11fe88", "Uniswap V3: Positions NFT", "defi"),
  ("0xdac17f958d2ee523a2206206994597c13d831ec7", "USDT (Tether)", "stablecoin"),
  ("0xa0b86991c6218b36c1d19d4a2e9eb0ce3606eb48", "USDC (Circle)", "stablecoin"),
  ("0x6b175474e89094c44da98b954eedeac495271d0f", "DAI (MakerDAO)", "stablecoin"),
  ("0x4fabb145d64652a948d72533023f6e7a623c7c53", "BUSD (Binance USD)", "stablecoin"),
  ("0xd90e2f925da726b50c4ed8d0fb90ad053324f31b", "Tornado Cash: Router", "mixer"),
  ("0x722122df12d4e14e13ac3b6895a86e84145b6967", "Tornado Cash: Proxy", "mixer"),
  ("0xdd4c48c0b24039969fc16d1cdf626eab821d3384", "Tornado Cash: 0.1 ETH", "mixer"),
  ("0xd4b88df4d29f5cedd6857912842cff3b20c8cfa3", "Tornado Cash: 1 ETH", "mixer"),
  ("0xfd8610d20aa15b7b2e3be39b396a1bc3516c7144", "Tornado Cash: 10 ETH", "mixer"),
  ("0x07687e702b410fa43f4cb4af7fa097918ffd2730", "Tornado Cash: 100 ETH", "mixer"),
  ("0x94a1b5cdb22c43faab4abeb5c74999895464ddba", "Tornado Cash: 0.1 ETH 2", "mixer"),
  ("0x12d66f87a04a9e220743712ce6d9bb1b5616b8fc", "Tornado Cash: 0.1 ETH 3", "mixer"),
  ("0x00000000006c3852cbef3e08e8df289169ede581", "OpenSea: Seaport 1.1", "nft"),
  ("0x00000000000001ad428e4906ae43d8f9852d0dd6", "OpenSea: Seaport 1.4", "nft"),
  ("0x00000000000000adc04c56bf30ac9d3c0aaf14dc", "OpenSea: Seaport 1.5", "nft"),
  ("0x74312363e45dcaba76c59ec49a7aa8a65a67eed3", "X2Y2: Exchange", "nft"),
  ("0x59728544b08ab483533076417fbbb2fd0b17ce3a", "LooksRare: Exchange", "nft"),
  ("0x00000000000006c7676171937c444f6bde3d6282", "Blur: Marketplace", "nft"),
  ("0xd8da6bf26964af9d7eed9e03e53415d37aa96045", "Vitalik Buterin", "other"),
  ("0x220866b1a2219f40e72f5c628b65d54268ca3a9d", "Vitalik Buterin 2", "other"),
  ("0x00000000219ab540356cbb839cbe05303d7705fa", "ETH2 Deposit Contract", "other"),
  ("0x0000000000000000000000000000000000000000", "Null Address (Burn)", "other"),
  ("0x000000000000000000000000000000000000dead", "Dead Address (Burn)", "other")]

/-- Lookup in a Python dict built from a key-value list: the value of the
last occurrence of the key wins. -/
def dictLookup {α : Type} (l : List (String × α)) (k : String) : Option α :=
  (l.reverse.find? (fun e => e.1 == k)).map (fun e => e.2)

/-- known_labels.lookup_address: returns the (label, category) pair for a
known address, after lowercasing. -/
def lookupAddress (address : String) : Option (String × String) :=
  dictLookup KNOWN_ADDRESSES (pyLower address)

/-- known_labels.is_mixer: the address is known with category mixer. -/
def isMixer (address : String) : Bool :=
  match dictLookup KNOWN_ADDRESSES (pyLower address) with
  | some e => e.2 == "mixer"
  | none => false

/-! ## Sanctions engine (backend/ml/sanctions.py) -/

/-- OFAC SDN-listed addresses (sanctions.py OFAC_SANCTIONED). -/
def OFAC_SANCTIONED : List (String × String) := [
  ("0x8589427373d6d84e98730d7795d8f6f8731fda16", "Tornado Cash: Proxy"),
  ("0x722122df12d4e14e13ac3b6895a86e84145b6967", "Tornado Cash: Router"),
  ("0xd90e2f925da726b50c4ed8d0fb90ad053324f31b", "Tornado Cash: 100 ETH"),
  ("0xd4b88df4d29f5cedd6857912842cff3b20c8cfa3", "Tornado Cash: 1000 ETH"),
  ("0xa160cdab225685da1d56aa342ad8841c3b53f291", "Tornado Cash: 0.1 ETH"),
  ("0xfd8610d20aa15b7b2e3be39b396a1bc3516c7144", "Tornado Cash: 10 ETH"),
  ("0xf60dd140cff0706bae9cd734ac3683f84d726559", "Tornado Cash: 1 ETH (2)"),
  ("0x905b63fff465b9ffbf41dea908ceb12cd9f4647c", "Tornado Cash: 10000 ETH"),
  ("0x07687e702b410fa43f4cb4af7fa097918ffd2730", "Tornado Cash: Gitcoin Grants"),
  ("0x94a1b5cdb22c43faab4abeb5c74999895464ddba", "Tornado Cash: Donation"),
  ("0xb541fc07bc7619fd4062a54d96268525cbc6ffef", "Tornado Cash: WStaking"),
  ("0x12d66f87a04a9e220743712ce6d9bb1b5616b8fc", "Tornado Cash: 0.1 ETH (2)"),
  ("0x23773e65ed146a459791799d01336db287f25334", "Tornado Cash: 100 DAI"),
  ("0xba214c1c1928a32bffe790263e38b4af9bfcd659", "Tornado Cash: 1000 DAI"),
  ("0xd21be7248e0197ee08e0c20d4a398dad3e452dfc", "Tornado Cash: wBTC Pool"),
  ("0x098b716b8aaf21512996dc57eb0615e2383e2f96", "Lazarus Group: Ronin Bridge Exploiter"),
  ("0xa0e1c89ef1a489c9c7de96311ed5ce5d32c20e4b", "Lazarus Group: Sub-wallet 1"),
  ("0x3cffd56b47b7b41c56258d9c7731abadc360e460", "Lazarus Group: Sub-wallet 2"),
  ("0x53b6936513e738f44fb50d2b9476730c0ab3bfc1", "Lazarus Group: Sub-wallet 3"),
  ("0x19aa5fe80d33a56d56c78e82ea5e50e5d80b4dff", "Garantex Exchange"),
  ("0xe7aa314c77f4233c18c6cc84384a9247c0cf367b", "Garantex Exchange Hot Wallet"),
  ("0x2f389ce8bd8ff92de3402ffce4691d17fc4f6535", "Chatex Exchange"),
  ("0x67d40ee1a85bf4a09ee570e0c42e831bf0dc48ea", "Suex OTC"),
  ("0x39d908dac893cbcb53cc86e0ecc369aa4def1a29", "Blender.io Mixer"),
  ("0xb6f5ec1a0a9cd1526536d3f0426c429529471f40", "Blender.io Mixer 2"),
  ("0x57b2b8c82f065de8ef5573f9730fc1449b403c9f", "Sindbad.io Mixer")]

/-- Community-flagged scam addresses (sanctions.py KNOWN_SCAM_ADDRESSES). -/
def KNOWN_SCAM_ADDRESSES : List (String × String) := [
  ("0x00000000a991c429ee2ec6df19d40fe0c80088b8", "Fake Phishing (zero-value transfer)"),
  ("0x55d398326f99059ff775485246999027b3197955", "BSC USDT Phishing Clone")]

/-- Result of sanctions.check_sanctions; the lists field holds
(list_name, label) pairs in the order the code appends them. -/
structure SanctionsResult where
  lists : List (String × String)
  risk_modifier : Nat
  is_sanctioned : Bool
  is_mixer : Bool
  is_scam : Bool
  deriving Repr, DecidableEq

/-- sanctions.py check_sanctions: matches the lowercased address against
the OFAC table (+40), the scam table (+30) and the mixer registry (+25),
caps the modifier at 50, and derives the category booleans from the
accumulated lists exactly as the source does. -/
def checkSanctions (address : String) : SanctionsResult :=
  let addr := pyLower address
  let ofacLists : List (String × String) :=
    match dictLookup OFAC_SANCTIONED addr with
    | some label => [("OFAC SDN", label)]
    | none => []
  let scamLists : List (String × String) :=
    match dictLookup KNOWN_SCAM_ADDRESSES addr with
    | some label => [("Community Scam List", label)]
    | none => []
  let mixerFlag := isMixer addr
  let mixerLists : List (String × String) :=
    if mixerFlag then
      [("Mixer", match lookupAddress addr with
        | some e => e.1
        | none => "Known Mixer")]
    else []
  let lists := ofacLists ++ scamLists ++ mixerLists
  let riskModifier : Nat :=
    (if (dictLookup OFAC_SANCTIONED addr).isSome then 40 else 0) +
    (if (dictLookup KNOWN_SCAM_ADDRESSES addr).isSome then 30 else 0) +
    (if mixerFlag then 25 else 0)
  { lists := lists
    risk_modifier := min riskModifier 50
    is_sanctioned := !(lists.filter (fun l => l.1 == "OFAC SDN")).isEmpty
    is_mixer := mixerFlag
    is_scam := !(lists.filter (fun l => l.1 == "Community Scam List")).isEmpty }

/-! ## Orchestrator (backend/main.py, analyze_wallet) -/

/-- The fields of the no-transaction report relevant to the claims. -/
structure NoDataReport where
  risk_score : Nat
  risk_label : String
  flags : List String
  tx_count : Nat
  deriving Repr, DecidableEq

/-- main.py lines 177-210: when the merged normal and internal transaction
lists are empty, the orchestrator still applies the sanctions check on the
target and returns a report without running the scorer. -/
def noDataReport (targetAddress : String) : NoDataReport :=
  let r := checkSanctions targetAddress
  let noDataScore := r.risk_modifier
  let baseFlags := ["No transactions found on this chain for this address"]
  if r.is_sanctioned then
    { risk_score := noDataScore, risk_label := "Critical Risk",
      flags := "ADDRESS IS ON OFAC SANCTIONS LIST" :: baseFlags, tx_count := 0 }
  else if r.is_mixer then
    { risk_score := noDataScore,
      risk_label := if noDataScore ≥ 40 then "High Risk" else "No Data",
      flags := "Address is a known mixer/tumbler" :: baseFlags, tx_count := 0 }
  else
    { risk_score := noDataScore, risk_label := "No Data", flags := baseFlags,
      tx_count := 0 }

/-- The mutable (risk_score, risk_label, flags) triple the orchestrator
threads through steps 5-10; the score entering step 8c is a non-negative
integer at most 100 (scorer output, or 50 on scorer error). -/
structure ScoreState where
  risk_score : Nat
  risk_label : String
  flags : List String
  deriving Repr, DecidableEq

/-- main.py lines 388-395 (step 8c): apply the sanctions modifier to the
risk score, promote the label and prepend the fatal flag on an OFAC hit. -/
def applySanctionsAdjustment (s : ScoreState) (r : SanctionsResult) : ScoreState :=
  if r.risk_modifier > 0 then
    let score := min 100 (s.risk_score + r.risk_modifier)
    if r.is_sanctioned then
      { risk_score := score, risk_label := "Critical Risk",
        flags := "ADDRESS IS ON OFAC SANCTIONS LIST" :: s.flags }
    else if r.is_mixer then
      { risk_score := score,
        risk_label := if score ≥ 80 then "Critical Risk" else s.risk_label,
        flags := s.flags }
    else
      { risk_score := score, risk_label := s.risk_label, flags := s.flags }
  else s

/-- main.py lines 408-445 (step 10): the advanced detectors only append
flags, and the community modifier raises the score (capped at 100) and
appends one more flag; the risk label is not touched after step 8c. -/
def applyDetectorsAndCommunity (s : ScoreState) (detectorFlags : List String)
    (community : Nat) : ScoreState :=
  let s1 : ScoreState := { s with flags := s.flags ++ detectorFlags }
  if community > 0 then
    { risk_score := min 100 (s1.risk_score + community),
      risk_label := s1.risk_label,
      flags := s1.flags ++ ["Community flagged (+" ++ toString community ++ " risk modifier)"] }
  else s1

/-! ## MEV detector (backend/ml/mev_detector.py)

The display-only fields of the Python result dictionaries (rounded gas
statistics, percentage strings, flag texts) are not modelled; every field a
claim mentions is.  Comparisons the source makes through float division
(cv = std/mean > 1.0, dex_calls > total_sent * 0.5) are translated into the
equivalent exact comparisons on rationals. -/

/-- mev_detector.py KNOWN_MEV_BOTS. -/
def KNOWN_MEV_BOTS : List (String × String) := [
  ("0x00000000000747d525e29c8b0dfea0a5b4e5dbe1", "Flashbots Builder"),
  ("0x98c3d3183c4b8a650614ad179a1a98be0a8d6b8e", "MEV Bot"),
  ("0xa57bd00134b2850b2a1c55860c9e9ea100fdd6cf", "MEV Bot #1"),
  ("0x000000000035b5e5ad9019092c665357240f594e", "Jared (Sandwich Bot)"),
  ("0x6b75d8af000000e20b7a7ddf000ba900b4009a80", "MEV Bot #2"),
  ("0xae2fc483527b8ef99eb5d9b44875f005ba1fae13", "MEV Searcher"),
  ("0x56178a0d5f301baf6cf3e1cd53d9863437345bf9", "Sandwich Bot"),
  ("0x68b3465833fb72a70ecdf485e0e4c7bd8665fc45", "Uniswap Router V2 (used by MEV)"),
  ("0xdef1c0ded9bec7f1a1670819833240f027b25eff", "0x Exchange Proxy")]

/-- mev_detector.py DEX_ROUTERS. -/
def DEX_ROUTERS : List (String × String) := [
  ("0x7a250d5630b4cf539739df2c5dacb4c659f2488d", "Uniswap V2 Router"),
  ("0xe592427a0aece92de3edee1f18e0157c05861564", "Uniswap V3 Router"),
  ("0x68b3465833fb72a70ecdf485e0e4c7bd8665fc45", "Uniswap V3 Router 2"),
  ("0xd9e1ce17f2641f24ae83637ab66a2cca9c378b9f", "SushiSwap Router"),
  ("0x1111111254eeb25477b68fb85ed929f73a960582", "1inch V5 Router"),
  ("0xdef1c0ded9bec7f1a1670819833240f027b25eff", "0x Exchange")]

/-- mev_detector._is_dex_call: destination is a DEX router and the call
data is longer than a bare selector. -/
def isDexCall (tx : Tx) : Bool :=
  (dictLookup DEX_ROUTERS (pyLower tx.toAddr)).isSome && tx.inputData.length > 10

/-- mev_detector._gas_price: wei to gwei. -/
def gasPriceGwei (tx : Tx) : ℚ := (tx.gasPrice.getD 0 : ℚ) / 1000000000

/-- Stable insertion step for sorting from the right: the element is placed
before the first element whose key is not smaller, so that elements with
equal keys keep their original relative order (Python sorted is stable). -/
def insertByKey (key : Tx → Nat) (x : Tx) : List Tx → List Tx
  | [] => [x]
  | y :: ys => if key y < key x then y :: insertByKey key x ys else x :: y :: ys

/-- Stable sort by a Nat key, as Python sorted(txs, key=...). -/
def sortByKey (key : Tx → Nat) (l : List Tx) : List Tx := l.foldr (insertByKey key) []

/-- First-seen-order deduplication, as iteration order over a Python dict
built by appending to per-key groups. -/
def dedupKeys {α : Type} [BEq α] (l : List α) : List α :=
  l.foldl (fun acc k => if acc.contains k then acc else acc ++ [k]) []

/-- A sandwich record (mev_detector.py lines 94-104); the derived gas
fields are carried, the victim count is the index gap minus one. -/
structure Sandwich where
  block : String
  front_tx : String
  back_tx : String
  front_index : Nat
  back_index : Nat
  contract : String
  victims_between : Int
  gas_front : ℚ
  gas_back : ℚ
  deriving Repr, DecidableEq

/-- mev_detector._detect_sandwiches (lines 58-106): group the target's DEX
calls by block in first-seen order; in each block with at least two such
calls, sort by transaction index and compare the first and the last; if
they share a destination and their indices differ by at least two, emit a
sandwich record. -/
def detectSandwiches (address : String) (transactions : List Tx) : List Sandwich :=
  let addr := pyLower address
  let dexTxs := transactions.filter (fun t => pyLower t.fro == addr && isDexCall t)
  let blocks := dedupKeys (dexTxs.map (fun t => t.blockNumber))
  blocks.foldl (fun acc block =>
    let txs := dexTxs.filter (fun t => t.blockNumber == block)
    if txs.length < 2 then acc
    else
      let sorted := sortByKey (fun t => t.transactionIndex) txs
      match sorted.head?, sorted.getLast? with
      | some first, some last =>
        if pyLower first.toAddr == pyLower last.toAddr &&
            (last.transactionIndex : Int) - first.transactionIndex ≥ 2 then
          let rec1 : Sandwich :=
            { block := block, front_tx := first.hash, back_tx := last.hash,
              front_index := first.transactionIndex, back_index := last.transactionIndex,
              contract := first.toAddr,
              victims_between := (last.transactionIndex : Int) - first.transactionIndex - 1,
              gas_front := gasPriceGwei first, gas_back := gasPriceGwei last }
          acc ++ [rec1]
        else acc
      | _, _ => acc) []

/-- A front-running record (mev_detector.py lines 142-150); the rounded
gas_premium_pct display field is not modelled. -/
structure FrontRun where
  block : String
  contract : String
  frontrun_tx : String
  followup_tx : String
  gas_frontrun : ℚ
  gas_followup : ℚ
  deriving Repr, DecidableEq

/-- mev_detector._detect_frontrunning (lines 111-152): group the target's
outbound transactions by block, then by destination contract; in each
group of at least two with a non-empty contract, flag each consecutive
sorted pair whose earlier gas price exceeds 1.1 times the later one. -/
def detectFrontrunning (address : String) (transactions : List Tx) : List FrontRun :=
  let addr := pyLower address
  let mine := transactions.filter (fun t => pyLower t.fro == addr)
  let blocks := dedupKeys (mine.map (fun t => t.blockNumber))
  blocks.foldl (fun acc block =>
    let txs := mine.filter (fun t => t.blockNumber == block)
    if txs.length < 2 then acc
    else
      let contracts := dedupKeys (txs.map (fun t => pyLower t.toAddr))
      contracts.foldl (fun acc2 contract =>
        let ctxs := txs.filter (fun t => pyLower t.toAddr == contract)
        if ctxs.length < 2 || contract == "" then acc2
        else
          let sorted := sortByKey (fun t => t.transactionIndex) ctxs
          acc2 ++ (sorted.zip sorted.tail).filterMap (fun p =>
            if gasPriceGwei p.1 > gasPriceGwei p.2 * 1.1 then
              let rec1 : FrontRun :=
                { block := block, contract := contract, frontrun_tx := p.1.hash,
                  followup_tx := p.2.hash, gas_frontrun := gasPriceGwei p.1,
                  gas_followup := gasPriceGwei p.2 }
              some rec1
            else none)) acc) []

/-- Population mean of a rational list (np.mean); callers guard emptiness. -/
def ratMean (l : List ℚ) : ℚ := l.sum / (l.length : ℚ)

/-- mev_detector._analyse_gas_patterns (lines 157-185), reduced to its
is_gas_outlier verdict: the gas prices are the gwei prices of the
transactions that carry a gasPrice field; the outlier test is
cv = std/mean > 1.0 (equivalently variance > mean squared, both sides
exact rationals) or max > 5 * mean, each guarded by mean > 0, and false on
an empty price list. -/
def isGasOutlier (transactions : List Tx) : Bool :=
  let gasPrices := (transactions.filter (fun t => t.gasPrice.isSome)).map gasPriceGwei
  if gasPrices.isEmpty then false
  else
    let meanGas := ratMean gasPrices
    let maxGas := gasPrices.foldl max 0
    let variance := (gasPrices.map (fun x => ((x - meanGas) ^ 2 : ℚ))).sum / (gasPrices.length : ℚ)
    decide (0 < meanGas ∧ meanGas ^ 2 < variance) ||
      decide (0 < meanGas ∧ meanGas * 5 < maxGas)

/-- The fields of mev_detector._analyse_dex_pattern relevant to scoring;
known_bot_interactions entries are (address, label, tx_hash). -/
structure DexPattern where
  total_outgoing : Nat
  dex_calls : Nat
  is_dex_heavy : Bool
  known_bot_interactions : List (String × String × String)
  deriving Repr, DecidableEq

/-- mev_detector._analyse_dex_pattern (lines 190-222): counts the target's
outbound transactions and DEX calls, gathers interactions with known MEV
bot addresses over both endpoints of every transaction (inbound included),
and keeps one interaction per bot address in first-seen order.
is_dex_heavy is dex_calls > total_sent * 0.5 and dex_calls >= 5. -/
def analyseDexPattern (address : String) (transactions : List Tx) : DexPattern :=
  let addr := pyLower address
  let totalSent := (transactions.filter (fun t => pyLower t.fro == addr)).length
  let dexCalls := (transactions.filter (fun t => pyLower t.fro == addr && isDexCall t)).length
  let interactions := transactions.foldl (fun acc t =>
    acc ++ ([pyLower t.toAddr, pyLower t.fro].filterMap (fun k =>
      match dictLookup KNOWN_MEV_BOTS k with
      | some label => some (k, label, t.hash)
      | none => none))) []
  let uniqueBots := interactions.foldl
    (fun (acc : List (String × String × String)) item =>
      if acc.any (fun b => b.1 == item.1) then acc else acc ++ [item]) []
  { total_outgoing := totalSent, dex_calls := dexCalls,
    is_dex_heavy := decide (totalSent < 2 * dexCalls) && decide (5 ≤ dexCalls),
    known_bot_interactions := uniqueBots }

/-- Result of mev_detector._detect_arb_patterns. -/
structure ArbAnalysis where
  arb_sequences : Nat
  is_arb_bot : Bool
  deriving Repr, DecidableEq

/-- The while loop of _detect_arb_patterns (lines 247-258): scan the
time-sorted DEX calls; three consecutive calls within 60 seconds count as
one sequence and the scan jumps past them, otherwise it advances by one.
The loop consumes at least one element per iteration, so a fuel equal to
the list length makes the recursion structural without changing the
result. -/
def countArbSequences (fuel : Nat) : List Tx → Nat
  | t1 :: t2 :: t3 :: rest =>
    match fuel with
    | 0 => 0
    | fuel + 1 =>
      if (t3.timeStamp : Int) - t1.timeStamp < 60 then
        1 + countArbSequences fuel rest
      else
        countArbSequences fuel (t2 :: t3 :: rest)
  | _ => 0

/-- mev_detector._detect_arb_patterns (lines 227-264). -/
def detectArbPatterns (address : String) (transactions : List Tx) : ArbAnalysis :=
  let addr := pyLower address
  let dexTxns := transactions.filter (fun t => pyLower t.fro == addr && isDexCall t)
  if dexTxns.length < 3 then { arb_sequences := 0, is_arb_bot := false }
  else
    let sorted := sortByKey (fun t => t.timeStamp) dexTxns
    let n := countArbSequences sorted.length sorted
    { arb_sequences := n, is_arb_bot := 3 ≤ n }

/-- The fields of the detect_mev_activity result dictionary that the
claims mention. -/
structure MevResult where
  is_mev_bot : Bool
  mev_risk_score : Nat
  sandwiches : List Sandwich
  frontrunning : List FrontRun
  is_gas_outlier : Bool
  dex_pattern : DexPattern
  arb_analysis : ArbAnalysis
  deriving Repr, DecidableEq

/-- mev_detector.detect_mev_activity (lines 269-345): run the five
analyses and combine the composite score; every addend is an integer, so
the float accumulator and final int(min(score, 100)) are exact. -/
def detectMevActivity (address : String) (transactions : List Tx) : MevResult :=
  let addr := pyLower address
  let sandwiches := detectSandwiches addr transactions
  let frontrunning := detectFrontrunning addr transactions
  let gasOutlier := isGasOutlier transactions
  let dex := analyseDexPattern addr transactions
  let arb := detectArbPatterns addr transactions
  let score :=
    (if sandwiches.isEmpty then 0 else min (sandwiches.length * 15) 35) +
    (if frontrunning.isEmpty then 0 else min (frontrunning.length * 10) 25) +
    (if dex.is_dex_heavy then 15 else 0) +
    (if dex.known_bot_interactions.isEmpty then 0
      else min (dex.known_bot_interactions.length * 5) 15) +
    (if gasOutlier then 10 else 0) +
    (if arb.is_arb_bot then 20 else 0)
  let mevScore := min score 100
  { is_mev_bot := 40 ≤ mevScore, mev_risk_score := mevScore,
    sandwiches := sandwiches, frontrunning := frontrunning,
    is_gas_outlier := gasOutlier, dex_pattern := dex, arb_analysis := arb }

/-! ## Temporal detector daily series (backend/ml/temporal_anomaly.py)

The UTC calendar day of a Unix timestamp is modelled by division by 86400;
the source keys buckets by the %Y-%m-%d string of the UTC timestamp, and
for the non-negative timestamps the code consumes the two keys are in
order-preserving bijection, so sorting by either gives the same series. -/

/-- The UTC day key of a timestamp. -/
def dayOf (ts : Nat) : Nat := ts / 86400

def natInsertAsc (x : Nat) : List Nat → List Nat
  | [] => [x]
  | y :: ys => if y < x then y :: natInsertAsc x ys else x :: y :: ys

/-- Ascending sort of day keys, as dict(sorted(buckets.items())). -/
def natSortAsc (l : List Nat) : List Nat := l.foldr natInsertAsc []

/-- temporal_anomaly._to_daily_series (lines 21-62), reduced to the day
keys: transactions with timestamp 0 are skipped, buckets are keyed by UTC
day in first-seen order, and dict(sorted(...)) orders them ascending. -/
def dailyDayKeys (transactions : List Tx) : List Nat :=
  natSortAsc (dedupKeys ((transactions.filter (fun t => t.timeStamp ≠ 0)).map
    (fun t => dayOf t.timeStamp)))

/-- tx_count of the bucket of one UTC day. -/
def dailyTxCount (transactions : List Tx) (d : Nat) : Nat :=
  (transactions.filter (fun t => t.timeStamp ≠ 0 && dayOf t.timeStamp == d)).length

/-- volume of the bucket of one UTC day (wei to native units). -/
def dailyVolume (transactions : List Tx) (d : Nat) : ℚ :=
  ((transactions.filter (fun t => t.timeStamp ≠ 0 && dayOf t.timeStamp == d)).map
    (fun t => (t.value : ℚ) / 1000000000000000000)).sum

/-- temporal_anomaly._fill_gaps (lines 65-70) applied to the tx_count
column: it sorts the existing day buckets by date and reads the column;
despite its name and docstring it inserts no entry for a day without
transactions. -/
def fillGapsTxCount (transactions : List Tx) : List Nat :=
  (dailyDayKeys transactions).map (dailyTxCount transactions)

/-- temporal_anomaly._fill_gaps applied to the volume column. -/
def fillGapsVolume (transactions : List Tx) : List ℚ :=
  (dailyDayKeys transactions).map (dailyVolume transactions)

/-- Modelled from the spec: the series paragraph 4.7 describes, one entry
per UTC calendar day from the first transaction day to the last, with
days having no transactions filled with 0. -/
def specZeroFilledTxCount (transactions : List Tx) : List Nat :=
  match dailyDayKeys transactions with
  | [] => []
  | d :: rest =>
    let lastDay := rest.foldl max d
    (List.range (lastDay - d + 1)).map (fun i => dailyTxCount transactions (d + i))

/-! ## Community reports (backend/ml/community_reports.py) -/

/-- community_reports.get_reports lines 145-151: when the number of
reports for the address is at least MIN_REPORTS_THRESHOLD = 2, the risk
modifier is min(int(math.log2(total + 1) * 8), 30), else 0.  For a Nat
argument, int(8 * log2(n)) is the integer k with 2 ^ k <= n ^ 8 < 2 ^ (k+1),
that is Nat.log 2 (n ^ 8); the float path agrees with the exact value for
every total (8 * log2(total + 1) is never an integer for the relevant
non-power-of-two arguments, and the cap at 30 absorbs any argument large
enough for double rounding to matter). -/
def communityRiskModifier (totalReports : Nat) : Nat :=
  if totalReports ≥ 2 then min (Nat.log 2 ((totalReports + 1) ^ 8)) 30 else 0

/-! ### C4: the sandwich scenario of the spec.  The gasPrice field is left
absent so that every forced computation stays in decidable integer
arithmetic; the sandwich logic never reads it. -/

def tgtC4 : String := "0x1111111111111111111111111111111111111111"

/-- Outbound DEX call at transaction index 5 of block 100. -/
def txC4a : Tx :=
  { hash := "0xf1", blockNumber := "100", transactionIndex := 5,
    timeStamp := 1000, fro := tgtC4,
    toAddr := "0x7a250d5630b4cf539739df2c5dacb4c659f2488d", value := 0,
    inputData := "0x38ed17390000000000" }

/-- Outbound DEX call at transaction index 9 of block 100, same router. -/
def txC4b : Tx :=
  { hash := "0xf2", blockNumber := "100", transactionIndex := 9,
    timeStamp := 1030, fro := tgtC4,
    toAddr := "0x7a250d5630b4cf539739df2c5dacb4c659f2488d", value := 0,
    inputData := "0x38ed17390000000000" }

/-- The non-target transaction at index 7 of block 100. -/
def txC4v : Tx :=
  { hash := "0xf3", blockNumber := "100", transactionIndex := 7,
    timeStamp := 1010, fro := "0x2222222222222222222222222222222222222222",
    toAddr := tgtC4, value := 1000000000000000000 }

def tgtC5 : String := "0x3333333333333333333333333333333333333333"

/-- An inbound transaction from a known MEV bot address; the target sends
nothing. -/
def txC5 : Tx :=
  { hash := "0xb1", blockNumber := "200", transactionIndex := 1, timeStamp := 5000,
    fro := "0x98c3d3183c4b8a650614ad179a1a98be0a8d6b8e", toAddr := tgtC5, value := 0 }

/-! ## Inputs of the concrete temporal scenario (C7) -/

/-- Transaction on UTC day 100. -/
def txC7a : Tx := { hash := "0xa1", timeStamp := 8640000, value := 2000000000000000000 }

/-- Transaction on UTC day 102; day 101 has no transaction. -/
def txC7b : Tx := { hash := "0xa2", timeStamp := 8812800, value := 1000000000000000000 }

/-! ## Fetcher cache (backend/ml/fetcher.py)

fetcher._cache_key hashes the ASCII string address.lower() + ":" +
str(chain_id) + ":" + action with hashlib.md5 and uses the hex digest as
the cache file name.  The spec instead speaks of sha256 over the bare
concatenation.  Both digest functions are implemented below over byte
lists (each byte a Nat below 256), so the two key schemes can be compared
on concrete inputs.  The fetcher keys are ASCII, so the UTF-8 bytes
Python hashes are the character code points. -/

/-- Two to the thirty-second power, the word modulus of both digests. -/
def M32 : Nat := 4294967296

/-- Rotate a 32-bit word left. -/
def rotl32 (x s : Nat) : Nat := ((x <<< s) % M32) ||| (x >>> (32 - s))

/-- Rotate a 32-bit word right. -/
def rotr32 (x s : Nat) : Nat := (x >>> s) ||| ((x <<< (32 - s)) % M32)

/-- Bitwise complement of a 32-bit word. -/
def not32 (x : Nat) : Nat := Nat.xor x 4294967295

/-- The bytes Python hashes for an ASCII string. -/
def strBytes (s : String) : List Nat := s.data.map Char.toNat

/-- Little-endian 32-bit words of a byte list whose length is a multiple
of four. -/
def leWords : List Nat → List Nat
  | b0 :: b1 :: b2 :: b3 :: rest =>
    (b0 + b1 * 256 + b2 * 65536 + b3 * 16777216) :: leWords rest
  | _ => []

/-- Big-endian 32-bit words of a byte list whose length is a multiple of
four. -/
def beWords : List Nat → List Nat
  | b0 :: b1 :: b2 :: b3 :: rest =>
    (b3 + b2 * 256 + b1 * 65536 + b0 * 16777216) :: beWords rest
  | _ => []

/-- The bit length of the message as eight little-endian bytes. -/
def leLen64 (n : Nat) : List Nat := (List.range 8).map (fun i => (n >>> (8 * i)) % 256)

/-- The bit length of the message as eight big-endian bytes. -/
def beLen64 (n : Nat) : List Nat := (List.range 8).map (fun i => (n >>> (8 * (7 - i))) % 256)

/-- Merkle-Damgard padding: a 0x80 byte, zeros to 56 mod 64, then the
64-bit bit length in the given byte order. -/
def padMessage (msg : List Nat) (lenBytes : Nat → List Nat) : List Nat :=
  msg ++ [128] ++ List.replicate ((119 - msg.length % 64) % 64) 0 ++ lenBytes (msg.length * 8)

/-- Successive 64-byte blocks of a list; the fuel equals the list length,
which keeps the recursion structural without changing the result. -/
def chunks64 (fuel : Nat) (l : List Nat) : List (List Nat) :=
  match fuel, l with
  | _, [] => []
  | 0, _ => []
  | fuel + 1, l => l.take 64 :: chunks64 fuel (l.drop 64)

/-- The MD5 sine-derived round constants (RFC 1321). -/
def md5K : List Nat := [
  3614090360, 3905402710, 606105819, 3250441966, 4118548399, 1200080426, 2821735955, 4249261313,
  1770035416, 2336552879, 4294925233, 2304563134, 1804603682, 4254626195, 2792965006, 1236535329,
  4129170786, 3225465664, 643717713, 3921069994, 3593408605, 38016083, 3634488961, 3889429448,
  568446438, 3275163606, 4107603335, 1163531501, 2850285829, 4243563512, 1735328473, 2368359562,
  4294588738, 2272392833, 1839030562, 4259657740, 2763975236, 1272893353, 4139469664, 3200236656,
  681279174, 3936430074, 3572445317, 76029189, 3654602809, 3873151461, 530742520, 3299628645,
  4096336452, 1126891415, 2878612391, 4237533241, 1700485571, 2399980690, 4293915773, 2240044497,
  1873313359, 4264355552, 2734768916, 1309151649, 4149444226, 3174756917, 718787259, 3951481745]

/-- The MD5 per-round left-rotation amounts. -/
def md5S : List Nat := [
  7, 12, 17, 22, 7, 12, 17, 22, 7, 12, 17, 22, 7, 12, 17, 22,
  5, 9, 14, 20, 5, 9, 14, 20, 5, 9, 14, 20, 5, 9, 14, 20,
  4, 11, 16, 23, 4, 11, 16, 23, 4, 11, 16, 23, 4, 11, 16, 23,
  6, 10, 15, 21, 6, 10, 15, 21, 6, 10, 15, 21, 6, 10, 15, 21]

/-- One MD5 round on the state (a, b, c, d) with message words m. -/
def md5Round (m : List Nat) (st : Nat × Nat × Nat × Nat) (i : Nat) :
    Nat × Nat × Nat × Nat :=
  let a := st.1
  let b := st.2.1
  let c := st.2.2.1
  let d := st.2.2.2
  let f :=
    if i < 16 then (b &&& c) ||| (not32 b &&& d)
    else if i < 32 then (d &&& b) ||| (not32 d &&& c)
    else if i < 48 then Nat.xor (Nat.xor b c) d
    else Nat.xor c (b ||| not32 d)
  let g :=
    if i < 16 then i
    else if i < 32 then (5 * i + 1) % 16
    else if i < 48 then (3 * i + 5) % 16
    else (7 * i) % 16
  let t := (f + a + md5K.getD i 0 + m.getD g 0) % M32
  (d, (b + rotl32 t (md5S.getD i 0)) % M32, b, c)

/-- One 64-byte MD5 block. -/
def md5Block (st : Nat × Nat × Nat × Nat) (blockBytes : List Nat) :
    Nat × Nat × Nat × Nat :=
  let m := leWords blockBytes
  let r := (List.range 64).foldl (md5Round m) st
  ((st.1 + r.1) % M32, (st.2.1 + r.2.1) % M32,
    (st.2.2.1 + r.2.2.1) % M32, (st.2.2.2 + r.2.2.2) % M32)

/-- A lower-case hex digit. -/
def hexDigit (n : Nat) : Char := if n < 10 then Char.ofNat (48 + n) else Char.ofNat (87 + n)

/-- Two lower-case hex digits of a byte. -/
def byteHex (b : Nat) : List Char := [hexDigit (b / 16), hexDigit (b % 16)]

/-- Hex of a 32-bit word, little-endian byte order (as MD5 digests). -/
def wordHexLE (w : Nat) : List Char :=
  byteHex (w % 256) ++ byteHex ((w >>> 8) % 256) ++ byteHex ((w >>> 16) % 256) ++
    byteHex ((w >>> 24) % 256)

/-- Hex of a 32-bit word, big-endian byte order (as SHA-256 digests). -/
def wordHexBE (w : Nat) : List Char :=
  byteHex ((w >>> 24) % 256) ++ byteHex ((w >>> 16) % 256) ++ byteHex ((w >>> 8) % 256) ++
    byteHex (w % 256)

/-- hashlib.md5(message).hexdigest() for a byte-list message. -/
def md5Hex (msg : List Nat) : String :=
  let padded := padMessage msg leLen64
  let st := (chunks64 padded.length padded).foldl md5Block
    (1732584193, 4023233417, 2562383102, 271733878)
  String.mk (wordHexLE st.1 ++ wordHexLE st.2.1 ++ wordHexLE st.2.2.1 ++ wordHexLE st.2.2.2)

/-- The SHA-256 round constants. -/
def sha256K : List Nat := [
  1116352408, 1899447441, 3049323471, 3921009573, 961987163, 1508970993, 2453635748, 2870763221,
  3624381080, 310598401, 607225278, 1426881987, 1925078388, 2162078206, 2614888103, 3248222580,
  3835390401, 4022224774, 264347078, 604807628, 770255983, 1249150122, 1555081692, 1996064986,
  2554220882, 2821834349, 2952996808, 3210313671, 3336571891, 3584528711, 113926993, 338241895,
  666307205, 773529912, 1294757372, 1396182291, 1695183700, 1986661051, 2177026350, 2456956037,
  2730485921, 2820302411, 3259730800, 3345764771, 3516065817, 3600352804, 4094571909, 275423344,
  430227734, 506948616, 659060556, 883997877, 958139571, 1322822218, 1537002063, 1747873779,
  1955562222, 2024104815, 2227730452, 2361852424, 2428436474, 2756734187, 3204031479, 3329325298]

/-- The SHA-256 state as eight 32-bit words. -/
structure Sha256State where
  a : Nat
  b : Nat
  c : Nat
  d : Nat
  e : Nat
  f : Nat
  g : Nat
  h : Nat
  deriving Repr, DecidableEq

/-- The SHA-256 initial state. -/
def sha256Init : Sha256State := {
  a := 1779033703, b := 3144134277, c := 1013904242, d := 2773480762,
  e := 1359893119, f := 2600822924, g := 528734635, h := 1541459225 }

/-- Message schedule extension: words 16 to 63. -/
def sha256Schedule (w16 : List Nat) : List Nat :=
  (List.range 48).foldl (fun w _ =>
    let n := w.length
    let w15 := w.getD (n - 15) 0
    let w2 := w.getD (n - 2) 0
    let s0 := Nat.xor (Nat.xor (rotr32 w15 7) (rotr32 w15 18)) (w15 >>> 3)
    let s1 := Nat.xor (Nat.xor (rotr32 w2 17) (rotr32 w2 19)) (w2 >>> 10)
    w ++ [(w.getD (n - 16) 0 + s0 + w.getD (n - 7) 0 + s1) % M32]) w16

/-- One SHA-256 round. -/
def sha256Round (w : List Nat) (st : Sha256State) (i : Nat) : Sha256State :=
  let s1 := Nat.xor (Nat.xor (rotr32 st.e 6) (rotr32 st.e 11)) (rotr32 st.e 25)
  let ch := Nat.xor (st.e &&& st.f) (not32 st.e &&& st.g)
  let t1 := (st.h + s1 + ch + sha256K.getD i 0 + w.getD i 0) % M32
  let s0 := Nat.xor (Nat.xor (rotr32 st.a 2) (rotr32 st.a 13)) (rotr32 st.a 22)
  let maj := Nat.xor (Nat.xor (st.a &&& st.b) (st.a &&& st.c)) (st.b &&& st.c)
  let t2 := (s0 + maj) % M32
  { a := (t1 + t2) % M32, b := st.a, c := st.b, d := st.c,
    e := (st.d + t1) % M32, f := st.e, g := st.f, h := st.g }

/-- One 64-byte SHA-256 block. -/
def sha256Block (st : Sha256State) (blockBytes : List Nat) : Sha256State :=
  let w := sha256Schedule (beWords blockBytes)
  let r := (List.range 64).foldl (sha256Round w) st
  { a := (st.a + r.a) % M32, b := (st.b + r.b) % M32, c := (st.c + r.c) % M32,
    d := (st.d + r.d) % M32, e := (st.e + r.e) % M32, f := (st.f + r.f) % M32,
    g := (st.g + r.g) % M32, h := (st.h + r.h) % M32 }

/-- hashlib.sha256(message).hexdigest() for a byte-list message. -/
def sha256Hex (msg : List Nat) : String :=
  let padded := padMessage msg beLen64
  let st := (chunks64 padded.length padded).foldl sha256Block sha256Init
  String.mk (wordHexBE st.a ++ wordHexBE st.b ++ wordHexBE st.c ++ wordHexBE st.d ++
    wordHexBE st.e ++ wordHexBE st.f ++ wordHexBE st.g ++ wordHexBE st.h)

/-- fetcher._cache_key (lines 35-37): the md5 hex digest of
lower(address) + ":" + str(chain_id) + ":" + action. -/
def cacheKey (address : String) (chainId : Nat) (action : String) : String :=
  md5Hex (strBytes (pyLower address ++ ":" ++ toString chainId ++ ":" ++ action))

/-- Modelled from the spec: the content address paragraph 4.1 claims,
sha256(address || chain || kind). -/
def specSha256CacheKey (address : String) (chainId : Nat) (action : String) : String :=
  sha256Hex (strBytes (address ++ toString chainId ++ action))

/-- One cache file: its mtime and the stored transaction list. -/
structure CacheEntry where
  mtime : Nat
  data : List Tx
  deriving Repr, DecidableEq

/-- fetcher.fetch_transactions (lines 60-100) as a pure function of the
cache state (file name to entry), the current time, and the remote
response (none models a network error, a non-1 status or an empty result;
some txns a successful fetch).  A cache file is a hit only while its age
is below CACHE_TTL = 300 seconds; a hit returns the stored list truncated
to max_results and leaves the cache alone; otherwise a successful fetch
writes the full result to the cache file and returns it truncated. -/
def fetchTransactionsModel (cache : String → Option CacheEntry) (now : Nat)
    (address : String) (chainId : Nat) (maxResults : Nat)
    (remote : Option (List Tx)) : List Tx × (String → Option CacheEntry) :=
  let key := cacheKey address chainId "txlist"
  let cached : Option (List Tx) :=
    match cache key with
    | some entry => if now - entry.mtime < 300 then some entry.data else none
    | none => none
  match cached with
  | some data => (data.take maxResults, cache)
  | none =>
    match remote with
    | some txns =>
      (txns.take maxResults, fun k => if k == key then some { mtime := now, data := txns } else cache k)
    | none => ([], cache)

/-! ## Theorems

Helper lemmas come first, then for each claim its theorem and, where the
theorem carries a hypothesis, a witness instantiating it at a concrete
input; for the corrected claims also the counterexample refuting the
original wording. -/

/-! ### C1, C6, C10: the hybrid scorer -/

theorem ruleRoundValue_nonneg (f : FeatureVector) : 0 ≤ ruleRoundValue f := by
  unfold ruleRoundValue; split_ifs <;> norm_num

theorem ruleBurst_nonneg (f : FeatureVector) : 0 ≤ ruleBurst f := by
  unfold ruleBurst; split_ifs <;> norm_num

theorem ruleSelfTransfers_nonneg (f : FeatureVector) : 0 ≤ ruleSelfTransfers f := by
  unfold ruleSelfTransfers; split_ifs <;> norm_num

theorem ruleFlowRatio_nonneg (f : FeatureVector) : 0 ≤ ruleFlowRatio f := by
  unfold ruleFlowRatio; split_ifs <;> norm_num

theorem ruleFailedTx_nonneg (f : FeatureVector) : 0 ≤ ruleFailedTx f := by
  unfold ruleFailedTx; split_ifs <;> norm_num

theorem ruleCycling_nonneg (f : FeatureVector) : 0 ≤ ruleCycling f := by
  unfold ruleCycling; split_ifs <;> norm_num

theorem ruleShortLifespan_nonneg (f : FeatureVector) : 0 ≤ ruleShortLifespan f := by
  unfold ruleShortLifespan; split_ifs <;> norm_num

theorem ruleNewWallet_nonneg (f : FeatureVector) : 0 ≤ ruleNewWallet f := by
  unfold ruleNewWallet; split_ifs <;> norm_num

theorem computeHeuristicBoost_eq_sum (f : FeatureVector) :
    computeHeuristicBoost f =
      min (ruleRoundValue f + ruleBurst f + ruleSelfTransfers f + ruleFlowRatio f +
        ruleFailedTx f + ruleCycling f + ruleShortLifespan f + ruleNewWallet f) 100 := by
  simp only [computeHeuristicBoost, ruleRoundValue, ruleBurst, ruleSelfTransfers,
    ruleFlowRatio, ruleFailedTx, ruleCycling, ruleShortLifespan, ruleNewWallet, zero_add]

theorem computeHeuristicBoost_nonneg (f : FeatureVector) : 0 ≤ computeHeuristicBoost f := by
  rw [computeHeuristicBoost_eq_sum]
  have h1 := ruleRoundValue_nonneg f
  have h2 := ruleBurst_nonneg f
  have h3 := ruleSelfTransfers_nonneg f
  have h4 := ruleFlowRatio_nonneg f
  have h5 := ruleFailedTx_nonneg f
  have h6 := ruleCycling_nonneg f
  have h7 := ruleShortLifespan_nonneg f
  have h8 := ruleNewWallet_nonneg f
  refine le_min (by linarith) (by norm_num)

theorem computeHeuristicBoost_le_hundred (f : FeatureVector) : computeHeuristicBoost f ≤ 100 := by
  rw [computeHeuristicBoost_eq_sum]; exact min_le_right _ _

/-- C6: the heuristic score is the sum of exactly the eight listed rule
contributions applied in source order with hard thresholds, capped at
100, and therefore lies in the 0 to 100 band for every finite feature
vector. -/
theorem heuristic_rule_bank (f : FeatureVector) :
    computeHeuristicBoost f =
      min (ruleRoundValue f + ruleBurst f + ruleSelfTransfers f + ruleFlowRatio f +
        ruleFailedTx f + ruleCycling f + ruleShortLifespan f + ruleNewWallet f) 100 ∧
    0 ≤ computeHeuristicBoost f ∧ computeHeuristicBoost f ≤ 100 :=
  ⟨computeHeuristicBoost_eq_sum f, computeHeuristicBoost_nonneg f,
    computeHeuristicBoost_le_hundred f⟩

/-- C1: the final risk score is clamp(0, 100, 0.7 ml + 0.3 heuristic)
truncated to an integer, and the label is Low below 40, Medium from 40
below 75, and High from 75, before any sanctions promotion. -/
theorem risk_score_blend_and_label (mlScore heuristicBoost : ℚ) :
    (scoreWallet mlScore heuristicBoost).1 =
      ⌊min 100 (max 0 (0.7 * mlScore + 0.3 * heuristicBoost))⌋ ∧
    ((scoreWallet mlScore heuristicBoost).1 < 40 →
      (scoreWallet mlScore heuristicBoost).2 = "Low Risk") ∧
    (40 ≤ (scoreWallet mlScore heuristicBoost).1 ∧ (scoreWallet mlScore heuristicBoost).1 < 75 →
      (scoreWallet mlScore heuristicBoost).2 = "Medium Risk") ∧
    (75 ≤ (scoreWallet mlScore heuristicBoost).1 →
      (scoreWallet mlScore heuristicBoost).2 = "High Risk") := by
  have harg : mlScore * 0.7 + heuristicBoost * 0.3 = 0.7 * mlScore + 0.3 * heuristicBoost := by
    ring
  refine ⟨?_, ?_, ?_, ?_⟩
  · simp only [scoreWallet, harg, min_comm, max_comm]
  · intro h
    simp only [scoreWallet] at h ⊢
    rw [if_neg (by omega), if_neg (by omega)]
  · intro h
    simp only [scoreWallet] at h ⊢
    rw [if_neg (by omega), if_pos (by omega)]
  · intro h
    simp only [scoreWallet] at h ⊢
    rw [if_pos (by omega)]

theorem foldl_min_const (t : ℚ) (l : List ℚ) (h : ∀ x ∈ l, x = t) : l.foldl min t = t := by
  induction l with
  | nil => rfl
  | cons a l ih =>
    have ha : a = t := h a (List.mem_cons_self a l)
    simp only [List.foldl_cons, ha, min_self]
    exact ih (fun x hx => h x (List.mem_cons_of_mem a hx))

theorem foldl_max_const (t : ℚ) (l : List ℚ) (h : ∀ x ∈ l, x = t) : l.foldl max t = t := by
  induction l with
  | nil => rfl
  | cons a l ih =>
    have ha : a = t := h a (List.mem_cons_self a l)
    simp only [List.foldl_cons, ha, max_self]
    exact ih (fun x hx => h x (List.mem_cons_of_mem a hx))

/-- C10: when the isolation model gives every row of the scored matrix
the same raw score, the min-max normalisation substitutes a range of 1.0
and the target scores exactly 100, so the final risk score is at least 70
whatever the heuristic adds. -/
theorem degenerate_batch_normalization (t : ℚ) (rest : List ℚ) (f : FeatureVector)
    (h : ∀ x ∈ rest, x = t) :
    mlScoreOfRaw t rest = 100 ∧
    70 ≤ (scoreWallet (mlScoreOfRaw t rest) (computeHeuristicBoost f)).1 := by
  have hml : mlScoreOfRaw t rest = 100 := by
    unfold mlScoreOfRaw
    simp only [List.foldl_cons, min_self, max_self]
    rw [foldl_min_const t rest h, foldl_max_const t rest h]
    norm_num
  refine ⟨hml, ?_⟩
  rw [hml]
  have h0 := computeHeuristicBoost_nonneg f
  have h100 := computeHeuristicBoost_le_hundred f
  simp only [scoreWallet]
  rw [Int.le_floor]
  have : (70:ℚ) ≤ 100 * 0.7 + computeHeuristicBoost f * 0.3 := by linarith
  have hle : (100:ℚ) * 0.7 + computeHeuristicBoost f * 0.3 ≤ 100 := by linarith
  push_cast
  rw [max_eq_left (by linarith), min_eq_left hle]
  linarith

theorem degenerate_batch_normalization_witness :
    mlScoreOfRaw 2 [2, 2] = 100 ∧
    70 ≤ (scoreWallet (mlScoreOfRaw 2 [2, 2]) (computeHeuristicBoost {})).1 :=
  degenerate_batch_normalization 2 [2, 2] {} (by decide)

/-! ### Facts about checkSanctions, then C3 and C2 -/

theorem checkSanctions_is_mixer (a : String) :
    (checkSanctions a).is_mixer = isMixer (pyLower a) := rfl

theorem checkSanctions_risk_modifier (a : String) :
    (checkSanctions a).risk_modifier =
      min ((if (dictLookup OFAC_SANCTIONED (pyLower a)).isSome then 40 else 0) +
        (if (dictLookup KNOWN_SCAM_ADDRESSES (pyLower a)).isSome then 30 else 0) +
        (if isMixer (pyLower a) then 25 else 0)) 50 := rfl

theorem checkSanctions_is_sanctioned (a : String) :
    (checkSanctions a).is_sanctioned = (dictLookup OFAC_SANCTIONED (pyLower a)).isSome := by
  unfold checkSanctions
  cases hof : dictLookup OFAC_SANCTIONED (pyLower a) <;>
  cases hsc : dictLookup KNOWN_SCAM_ADDRESSES (pyLower a) <;>
  cases hmx : isMixer (pyLower a) <;>
  simp [hof, hsc, hmx, List.filter]

theorem scam_not_mixer (s : String)
    (h : (dictLookup KNOWN_SCAM_ADDRESSES s).isSome = true) : isMixer s = false := by
  unfold dictLookup at h
  cases hf : (KNOWN_SCAM_ADDRESSES.reverse.find? (fun e => e.1 == s)) with
  | none => rw [hf] at h; simp at h
  | some p =>
    have hmem : p ∈ KNOWN_SCAM_ADDRESSES := List.mem_reverse.mp (List.mem_of_find?_eq_some hf)
    have hpred := List.find?_some hf
    have hps : p.1 = s := by simpa using hpred
    have : p = ("0x00000000a991c429ee2ec6df19d40fe0c80088b8", "Fake Phishing (zero-value transfer)") ∨
        p = ("0x55d398326f99059ff775485246999027b3197955", "BSC USDT Phishing Clone") := by
      simpa [KNOWN_SCAM_ADDRESSES] using hmem
    rcases this with hp | hp <;> (rw [hp] at hps; rw [← hps]; decide)

theorem sanctioned_modifier_ge (a : String)
    (h : (checkSanctions a).is_sanctioned = true) : 40 ≤ (checkSanctions a).risk_modifier := by
  rw [checkSanctions_is_sanctioned] at h
  rw [checkSanctions_risk_modifier]
  simp only [h, if_true]
  split_ifs <;> omega

theorem unsanctioned_modifier_lt (a : String)
    (h : (checkSanctions a).is_sanctioned = false) : (checkSanctions a).risk_modifier < 40 := by
  rw [checkSanctions_is_sanctioned] at h
  rw [checkSanctions_risk_modifier]
  simp only [h, Bool.false_eq_true, if_false]
  by_cases hsc : (dictLookup KNOWN_SCAM_ADDRESSES (pyLower a)).isSome = true
  · have hmx : isMixer (pyLower a) = false := scam_not_mixer _ hsc
    simp [hsc, hmx]
  · have hsc' : (dictLookup KNOWN_SCAM_ADDRESSES (pyLower a)).isSome = false := by
      simpa using hsc
    simp only [hsc', Bool.false_eq_true, if_false]
    split_ifs <;> omega

theorem lists_nil_shape (a : String) (h : (checkSanctions a).lists = []) :
    (checkSanctions a).is_sanctioned = false ∧ (checkSanctions a).is_mixer = false ∧
      (checkSanctions a).risk_modifier = 0 := by
  unfold checkSanctions at h ⊢
  cases hof : dictLookup OFAC_SANCTIONED (pyLower a) <;>
  cases hsc : dictLookup KNOWN_SCAM_ADDRESSES (pyLower a) <;>
  cases hmx : isMixer (pyLower a) <;>
  simp [hof, hsc, hmx] at h ⊢

/-- C3: empty transaction history. -/
theorem empty_history_report (address : String) :
    (noDataReport address).tx_count = 0 ∧
    (noDataReport address).risk_score = (checkSanctions address).risk_modifier ∧
    ((checkSanctions address).is_sanctioned = true →
      (noDataReport address).risk_label = "Critical Risk") ∧
    ((checkSanctions address).is_sanctioned = false →
      (noDataReport address).risk_label = "No Data") ∧
    "No transactions found on this chain for this address" ∈ (noDataReport address).flags ∧
    ((checkSanctions address).lists = [] →
      noDataReport address =
        { risk_score := 0, risk_label := "No Data",
          flags := ["No transactions found on this chain for this address"], tx_count := 0 }) := by
  refine ⟨?_, ?_, ?_, ?_, ?_, ?_⟩
  · unfold noDataReport; dsimp only; split_ifs <;> rfl
  · unfold noDataReport; dsimp only; split_ifs <;> rfl
  · intro h; unfold noDataReport; dsimp only; simp [h]
  · intro h
    have hlt := unsanctioned_modifier_lt address h
    unfold noDataReport
    dsimp only
    simp only [h, Bool.false_eq_true, if_false]
    split_ifs with hm h40
    · omega
    · rfl
    · rfl
  · unfold noDataReport; dsimp only; split_ifs <;> simp
  · intro h
    obtain ⟨h1, h2, h3⟩ := lists_nil_shape address h
    unfold noDataReport
    dsimp only
    simp [h1, h2, h3]

theorem empty_history_report_witness :
    (noDataReport "0x8589427373d6d84e98730d7795d8f6f8731fda16").risk_label =
      "Critical Risk" :=
  (empty_history_report "0x8589427373d6d84e98730d7795d8f6f8731fda16").2.2.1 (by decide)

/-- C2: sanctions adjustment in the orchestrator. -/
theorem sanctions_adjustment (address : String) (s : ScoreState)
    (detectorFlags : List String) (community : Nat)
    (hs : s.risk_score ≤ 100) :
    (0 < (checkSanctions address).risk_modifier →
      (applySanctionsAdjustment s (checkSanctions address)).risk_score =
        min 100 (s.risk_score + (checkSanctions address).risk_modifier) ∧
      s.risk_score ≤ (applySanctionsAdjustment s (checkSanctions address)).risk_score) ∧
    ((checkSanctions address).is_sanctioned = true →
      (applyDetectorsAndCommunity (applySanctionsAdjustment s (checkSanctions address))
        detectorFlags community).risk_label = "Critical Risk" ∧
      (applyDetectorsAndCommunity (applySanctionsAdjustment s (checkSanctions address))
        detectorFlags community).flags.head? =
          some "ADDRESS IS ON OFAC SANCTIONS LIST") := by
  constructor
  · intro hpos
    unfold applySanctionsAdjustment
    rw [if_pos hpos]
    split_ifs <;> exact ⟨rfl, by simp; omega⟩
  · intro hsanc
    have h40 := sanctioned_modifier_ge address hsanc
    have hpos : 0 < (checkSanctions address).risk_modifier := by omega
    unfold applySanctionsAdjustment
    rw [if_pos hpos, if_pos (by simp [hsanc])]
    unfold applyDetectorsAndCommunity
    split_ifs <;> simp

theorem sanctions_adjustment_witness :
    (applyDetectorsAndCommunity
      (applySanctionsAdjustment { risk_score := 10, risk_label := "Low Risk", flags := [] }
        (checkSanctions "0x722122df12d4e14e13ac3b6895a86e84145b6967")) [] 0).risk_label =
      "Critical Risk" ∧
    (applyDetectorsAndCommunity
      (applySanctionsAdjustment { risk_score := 10, risk_label := "Low Risk", flags := [] }
        (checkSanctions "0x722122df12d4e14e13ac3b6895a86e84145b6967")) [] 0).flags.head? =
      some "ADDRESS IS ON OFAC SANCTIONS LIST" :=
  (sanctions_adjustment "0x722122df12d4e14e13ac3b6895a86e84145b6967"
    { risk_score := 10, risk_label := "Low Risk", flags := [] } [] 0 (by decide)).2 (by decide)

/-- C4 counterexample: on the spec scenario (two outbound calls to the
same router at indices 5 and 9, one non-target transaction at index 7)
the single emitted sandwich record carries victims_between = 3, not 1:
the code sets victims_between to the index gap minus one, counting index
slots 6, 7 and 8. -/
theorem sandwich_victims_counterexample :
    (detectMevActivity tgtC4 [txC4a, txC4v, txC4b]).sandwiches.map
      (fun s => s.victims_between) = [3] ∧
    ¬ ((detectMevActivity tgtC4 [txC4a, txC4v, txC4b]).sandwiches.map
      (fun s => s.victims_between) = [1]) := by decide

theorem mev_score_ge_15_of_sandwich (address : String) (transactions : List Tx)
    (h : (detectSandwiches (pyLower address) transactions).length = 1) :
    15 ≤ (detectMevActivity address transactions).mev_risk_score := by
  unfold detectMevActivity
  dsimp only
  cases hs : detectSandwiches (pyLower address) transactions with
  | nil => rw [hs] at h; simp at h
  | cons a l =>
    rw [hs] at h
    have h15 : min ((a :: l).length * 15) 35 = 15 := by rw [h]; decide
    simp only [List.isEmpty_cons, Bool.false_eq_true, if_false, h15]
    rw [le_min_iff]
    refine ⟨by omega, by norm_num⟩

/-- C4 amended: the scenario yields exactly one sandwich record, whose
front_index is 5, back_index is 9, contract is the router and
victims_between is 3, and the MEV risk score is at least 15. -/
theorem sandwich_scenario_amended :
    (detectMevActivity tgtC4 [txC4a, txC4v, txC4b]).sandwiches.map
      (fun s => (s.block, s.front_index, s.back_index, s.contract, s.victims_between)) =
      [("100", 5, 9, "0x7a250d5630b4cf539739df2c5dacb4c659f2488d", 3)] ∧
    15 ≤ (detectMevActivity tgtC4 [txC4a, txC4v, txC4b]).mev_risk_score :=
  ⟨by decide, mev_score_ge_15_of_sandwich tgtC4 [txC4a, txC4v, txC4b] (by decide)⟩

/-! ### C5 continued: wallets with no outbound transactions -/

theorem toLower_idem (c : Char) : c.toLower.toLower = c.toLower := by
  unfold Char.toLower
  dsimp only
  by_cases h : c.toNat ≥ 65 ∧ c.toNat ≤ 90
  · rw [if_pos h]
    obtain ⟨h1, h2⟩ := h
    interval_cases hn : c.toNat <;> decide
  · rw [if_neg h, if_neg h]

theorem pyLower_idem (s : String) : pyLower (pyLower s) = pyLower s := by
  unfold pyLower
  refine congrArg String.mk ?_
  show List.map Char.toLower (List.map Char.toLower s.data) = List.map Char.toLower s.data
  rw [List.map_map]
  exact List.map_congr_left (fun a _ => toLower_idem a)

theorem no_outbound_filter (address : String) (transactions : List Tx)
    (h : ∀ t ∈ transactions, pyLower t.fro ≠ pyLower address) (p : Tx → Bool) :
    transactions.filter (fun t => pyLower t.fro == pyLower (pyLower address) && p t) = [] := by
  refine List.filter_eq_nil_iff.mpr (fun t ht => ?_)
  rw [pyLower_idem]
  simp [h t ht]

theorem no_outbound_filter_plain (address : String) (transactions : List Tx)
    (h : ∀ t ∈ transactions, pyLower t.fro ≠ pyLower address) :
    transactions.filter (fun t => pyLower t.fro == pyLower (pyLower address)) = [] := by
  refine List.filter_eq_nil_iff.mpr (fun t ht => ?_)
  rw [pyLower_idem]
  simp [h t ht]

theorem detectSandwiches_no_outbound (address : String) (transactions : List Tx)
    (h : ∀ t ∈ transactions, pyLower t.fro ≠ pyLower address) :
    detectSandwiches (pyLower address) transactions = [] := by
  unfold detectSandwiches
  dsimp only
  rw [no_outbound_filter address transactions h]
  rfl

theorem detectFrontrunning_no_outbound (address : String) (transactions : List Tx)
    (h : ∀ t ∈ transactions, pyLower t.fro ≠ pyLower address) :
    detectFrontrunning (pyLower address) transactions = [] := by
  unfold detectFrontrunning
  dsimp only
  rw [no_outbound_filter_plain address transactions h]
  rfl

theorem dexPattern_no_outbound (address : String) (transactions : List Tx)
    (h : ∀ t ∈ transactions, pyLower t.fro ≠ pyLower address) :
    (analyseDexPattern (pyLower address) transactions).is_dex_heavy = false := by
  unfold analyseDexPattern
  dsimp only
  rw [no_outbound_filter_plain address transactions h,
    no_outbound_filter address transactions h]
  decide

theorem detectArbPatterns_no_outbound (address : String) (transactions : List Tx)
    (h : ∀ t ∈ transactions, pyLower t.fro ≠ pyLower address) :
    detectArbPatterns (pyLower address) transactions =
      { arb_sequences := 0, is_arb_bot := false } := by
  unfold detectArbPatterns
  dsimp only
  rw [no_outbound_filter address transactions h]
  rfl

/-- C5 amended: with zero outbound transactions the MEV verdict is never
bot and the score is at most 25, not necessarily 0: the composite can
still pick up 10 for a gas-price outlier over the inbound transactions
and up to 15 for known MEV-bot counterparties, and it is 0 exactly when
neither inbound-driven signal fires. -/
theorem mev_no_outbound_bounds (address : String) (transactions : List Tx)
    (h : ∀ t ∈ transactions, pyLower t.fro ≠ pyLower address) :
    (detectMevActivity address transactions).is_mev_bot = false ∧
    (detectMevActivity address transactions).mev_risk_score ≤ 25 ∧
    (isGasOutlier transactions = false →
      (analyseDexPattern (pyLower address) transactions).known_bot_interactions = [] →
      (detectMevActivity address transactions).mev_risk_score = 0) := by
  unfold detectMevActivity
  dsimp only
  rw [detectSandwiches_no_outbound address transactions h,
    detectFrontrunning_no_outbound address transactions h,
    detectArbPatterns_no_outbound address transactions h,
    dexPattern_no_outbound address transactions h]
  simp only [List.isEmpty_nil, if_true, Bool.false_eq_true, if_false]
  have hbots : (if (analyseDexPattern (pyLower address) transactions).known_bot_interactions.isEmpty
      then 0
      else min ((analyseDexPattern (pyLower address) transactions).known_bot_interactions.length * 5) 15) ≤ 15 := by
    split_ifs <;> omega
  have hgas : (if isGasOutlier transactions then 10 else 0) ≤ 10 := by
    split_ifs <;> omega
  refine ⟨?_, by omega, ?_⟩
  · rw [decide_eq_false_iff_not]
    omega
  · intro hg hb
    rw [hg, hb]
    simp

theorem mev_no_outbound_bounds_witness :
    (detectMevActivity tgtC5 [txC5]).is_mev_bot = false :=
  (mev_no_outbound_bounds tgtC5 [txC5] (by decide)).1

/-- C5 counterexample: a wallet whose only transaction is inbound from a
known MEV bot has zero outbound transactions, yet the MEV risk score is 5
(one known-bot interaction), not 0. -/
theorem mev_inbound_only_counterexample :
    [txC5].filter (fun t => pyLower t.fro == pyLower tgtC5) = [] ∧
    (detectMevActivity tgtC5 [txC5]).mev_risk_score = 5 := by decide

/-- C7: _fill_gaps inserts no entry for a calendar day without
transactions, although its own docstring promises a contiguous zero-filled
array.  On two transactions two days apart the series the detectors
receive has two entries, while the zero-filled series of the spec has
three with a 0 in the middle. -/
theorem daily_series_gap_divergence :
    dayOf txC7a.timeStamp = 100 ∧ dayOf txC7b.timeStamp = 102 ∧
    fillGapsTxCount [txC7a, txC7b] = [1, 1] ∧
    specZeroFilledTxCount [txC7a, txC7b] = [1, 0, 1] ∧
    ¬ (fillGapsTxCount [txC7a, txC7b] = specZeroFilledTxCount [txC7a, txC7b]) := by
  decide

/-! ### C9: community report risk modifier -/

/-- C9: the community risk modifier follows the spec formula, and it is
monotonically non-decreasing in the report count. -/
theorem community_modifier_formula_and_monotone (s t : Nat) (hst : s ≤ t) :
    (communityRiskModifier t =
      if t ≥ 2 then min 30 (Nat.log 2 ((t + 1) ^ 8)) else 0) ∧
    communityRiskModifier s ≤ communityRiskModifier t := by
  constructor
  · unfold communityRiskModifier
    split_ifs with h1
    · exact min_comm _ _
    · rfl
  · unfold communityRiskModifier
    split_ifs with h1 h2
    · exact min_le_min (Nat.log_mono_right (Nat.pow_le_pow_left (by omega) 8)) (le_refl 30)
    · omega
    · exact Nat.zero_le _
    · exact Nat.zero_le _

theorem community_modifier_witness :
    (communityRiskModifier 5 =
      if 5 ≥ 2 then min 30 (Nat.log 2 ((5 + 1) ^ 8)) else 0) ∧
    communityRiskModifier 2 ≤ communityRiskModifier 5 :=
  community_modifier_formula_and_monotone 2 5 (by decide)

/-! ### C8 theorems -/

set_option maxRecDepth 1000000 in
/-- C8 counterexample: the cache key of a concrete fetch is the md5
digest of the colon-separated lowercased key string, which differs from
the sha256 digest of the concatenation named by the spec (the digests do
not even have the same length). -/
theorem cache_key_not_sha256 :
    cacheKey "0xAb" 1 "txlist" ≠ specSha256CacheKey "0xAb" 1 "txlist" ∧
    cacheKey "0xAb" 1 "txlist" = "5c82ec7439cd82e2d97a17477a94fb51" := by decide

/-- C8 amended: the cache key is the md5 hex digest of
lower(address):chain:kind; a cache hit younger than the 300 second TTL
returns the cached list truncated to max_results without touching the
cache, and a stale or missing entry falls through to the remote fetch,
whose successful result overwrites the cache file and is returned
truncated. -/
theorem fetch_cache_behaviour (cache : String → Option CacheEntry) (now : Nat)
    (address : String) (chainId maxResults : Nat) (remote : Option (List Tx)) :
    (cacheKey address chainId "txlist" =
      md5Hex (strBytes (pyLower address ++ ":" ++ toString chainId ++ ":" ++ "txlist"))) ∧
    (∀ entry, cache (cacheKey address chainId "txlist") = some entry →
      now - entry.mtime < 300 →
      fetchTransactionsModel cache now address chainId maxResults remote =
        (entry.data.take maxResults, cache)) ∧
    (∀ txns, remote = some txns →
      cache (cacheKey address chainId "txlist") = none →
      (fetchTransactionsModel cache now address chainId maxResults remote).1 =
        txns.take maxResults ∧
      (fetchTransactionsModel cache now address chainId maxResults remote).2
        (cacheKey address chainId "txlist") = some { mtime := now, data := txns }) ∧
    (∀ txns entry, remote = some txns →
      cache (cacheKey address chainId "txlist") = some entry →
      ¬ (now - entry.mtime < 300) →
      (fetchTransactionsModel cache now address chainId maxResults remote).1 =
        txns.take maxResults ∧
      (fetchTransactionsModel cache now address chainId maxResults remote).2
        (cacheKey address chainId "txlist") = some { mtime := now, data := txns }) := by
  refine ⟨rfl, ?_, ?_, ?_⟩
  · intro entry he hfresh
    unfold fetchTransactionsModel
    simp [he, hfresh]
  · intro txns hr hnone
    unfold fetchTransactionsModel
    simp [hnone, hr]
  · intro txns entry hr he hstale
    unfold fetchTransactionsModel
    simp [he, hstale, hr]

theorem fetch_cache_behaviour_witness :
    fetchTransactionsModel (fun _ => some { mtime := 100, data := [] }) 200 "0xab" 1 5 none =
      (([] : List Tx).take 5, fun _ => some { mtime := 100, data := [] }) :=
  (fetch_cache_behaviour (fun _ => some { mtime := 100, data := [] }) 200 "0xab" 1 5
    none).2.1 { mtime := 100, data := [] } rfl (by decide)

end Kryptos
